import Mathlib

/-!
Shallow embedding of `formshare/apps/viewer/tasks.py`.

The module orchestrates asynchronous export jobs: a dispatcher
(`create_async_export`) creates an `Export` record, routes the request to one
of seven celery tasks, and stamps the record with the scheduler's task id; the
task wrappers re-fetch the record, call a format generator, and on failure mark
the record FAILED and (except for the benign no-records case in the CSV
wrapper) report to the admins and re-raise.  A cleanup task (`delete_export`)
and a mongo sync-status reporter (`email_mongo_sync_status`) complete the
module.

External collaborators (the Django ORM record store, the celery scheduler, the
format generators, the admin mailer and the mongo probe) are modelled as
explicit parameters and effect logs; exceptions are modelled by `TaskOutcome`.
-/

/-- The export-type constants of the `Export` model that `tasks.py` routes on
(`Export.XLS_EXPORT`, `Export.GDOC_EXPORT`, `Export.CSV_EXPORT`,
`Export.CSV_ZIP_EXPORT`, `Export.SAV_ZIP_EXPORT`, `Export.ZIP_EXPORT`,
`Export.KML_EXPORT`, `Export.EXTERNAL_EXPORT`); `other tag` stands for any
value outside that enumeration. -/
inductive ExportType
  | xls
  | gdoc
  | csv
  | csv_zip
  | sav_zip
  | zip
  | kml
  | external
  | other (tag : String)
deriving DecidableEq, Repr

/-- Whether the export type is one of the eight constants the dispatcher
recognises. -/
def ExportType.isSupported : ExportType → Bool
  | .other _ => false
  | _ => true

/-- `internal_status` values used by `tasks.py`: records are created pending
and the wrappers only ever write `Export.FAILED`. -/
inductive InternalStatus
  | pending
  | failed
deriving DecidableEq, Repr

/-- Owner of a form (`xform.user`). -/
structure User where
  username : String
deriving DecidableEq, Repr

/-- The form an export belongs to (`xform`): `tasks.py` reads
`xform.user.username` and `xform.id_string`. -/
structure XForm where
  user : User
  id_string : String
deriving DecidableEq, Repr

/-- One row of the `Export` model as used by `tasks.py`: id, owning form,
export type, `internal_status`, and `task_id` (unset until the dispatcher
stamps it). -/
structure ExportRecord where
  id : Nat
  xform : XForm
  export_type : ExportType
  internal_status : InternalStatus
  task_id : Option String
deriving DecidableEq, Repr

/-- The durable record store (`Export.objects`): the rows plus the id the next
created row receives. -/
structure Store where
  records : List ExportRecord
  nextId : Nat
deriving DecidableEq, Repr

/-- `Export.objects.create(xform=xform, export_type=export_type)`: a new row
with a fresh id, implicitly pending, no task id. -/
def Store.create (s : Store) (xform : XForm) (t : ExportType) :
    Store × ExportRecord :=
  let r : ExportRecord :=
    { id := s.nextId, xform := xform, export_type := t,
      internal_status := .pending, task_id := none }
  ({ records := s.records ++ [r], nextId := s.nextId + 1 }, r)

/-- `Export.objects.get(id=i)`: the row with primary key `i`, if any. -/
def Store.get (s : Store) (i : Nat) : Option ExportRecord :=
  s.records.find? (fun r => r.id == i)

/-- `record.save()`: update the row with the same primary key (insert it if it
is not present). -/
def Store.save (s : Store) (r : ExportRecord) : Store :=
  if s.records.any (fun x => x.id == r.id) then
    { s with records := s.records.map (fun x => if x.id == r.id then r else x) }
  else
    { s with records := s.records ++ [r] }

/-- `record.delete()`: remove the row with primary key `i`. -/
def Store.delete (s : Store) (i : Nat) : Store :=
  { s with records := s.records.filter (fun r => !(r.id == i)) }

/-- Exceptions that appear in `tasks.py`: the no-records signal
(`NoRecordsFoundError`), the ORM's `Export.DoesNotExist`, the dispatcher's
`Export.ExportTypeError`, `requests.ConnectionError`, and any other
exception. -/
inductive PyExc
  | noRecordsFound
  | doesNotExist
  | exportTypeError
  | connectionError
  | other (msg : String)
deriving DecidableEq, Repr

/-- Outcome of a Python function: a normal return or a propagated
exception. -/
inductive TaskOutcome (α : Type)
  | ret (value : α)
  | raised (e : PyExc)
deriving DecidableEq, Repr

/-- One call to a format generator, recording which generator function
`tasks.py` invoked and with which arguments. -/
inductive GenCall
  | generate_export (export_type : ExportType) (ext : String)
      (username : String) (id_string : String) (export_id : Nat)
      (query : Option String) (group_delimiter : String)
      (split_select_multiples : Bool) (binary_select_multiples : Bool)
  | generate_kml_export (export_type : ExportType) (ext : String)
      (username : String) (id_string : String) (export_id : Nat)
      (query : Option String)
  | generate_attachments_zip_export (export_type : ExportType) (ext : String)
      (username : String) (id_string : String) (export_id : Nat)
      (query : Option String)
  | generate_external_export (export_type : ExportType)
      (username : String) (id_string : String) (export_id : Nat)
      (token : Option String) (query : Option String) (meta : Option String)
deriving DecidableEq, Repr

/-- What a format generator does on a given call: return a generated export
(with an id) or raise. -/
inductive GenResult
  | ok (genId : Nat)
  | raised (e : PyExc)
deriving DecidableEq, Repr

/-- The file extension a `GenCall` carries (the external generator takes
none). -/
def GenCall.extOf : GenCall → Option String
  | .generate_export _ ext _ _ _ _ _ _ _ => some ext
  | .generate_kml_export _ ext _ _ _ _ => some ext
  | .generate_attachments_zip_export _ ext _ _ _ _ => some ext
  | .generate_external_export _ _ _ _ _ _ _ => none

/-- One `report_exception` call as the wrappers issue it: the message is
formatted as `"<jobType> Exception: Export ID - <export_id>,
/<username>/<id_string>"` and the exception is attached. -/
structure AdminReport where
  jobType : String
  export_id : Nat
  username : String
  id_string : String
  exc : PyExc
deriving DecidableEq, Repr

/-- Relevant Django settings read by `tasks.py`. -/
structure Settings where
  CELERY_ALWAYS_EAGER : Bool
  TESTING_MODE : Bool
  ZIP_EXPORT_COUNTDOWN : Nat
deriving DecidableEq, Repr

/-- Effects of running one task wrapper: the store it leaves behind, the
generator calls it made, the `report_exception` calls, the `delete_export`
jobs it scheduled (export id and countdown), and its return/raise outcome
(`ret none` models Python returning `None`). -/
structure WrapperEffects where
  store : Store
  genCalls : List GenCall
  reports : List AdminReport
  scheduled : List (Nat × Nat)
  outcome : TaskOutcome (Option Nat)
deriving DecidableEq, Repr

/-- `create_xls_export`: computes the extension from `force_xlsx`, re-fetches
the record (returning `None` when absent), calls `generate_export`, and on any
exception — `except (Exception, NoRecordsFoundError)` catches the no-records
signal together with everything else — marks the record FAILED, reports to the
admins and re-raises. -/
def create_xls_export (gen : GenCall → GenResult) (store : Store)
    (username : String) (id_string : String) (export_id : Nat)
    (query : Option String := none) (force_xlsx : Bool := true)
    (group_delimiter : String := "/") (split_select_multiples : Bool := true)
    (binary_select_multiples : Bool := false) : WrapperEffects :=
  let ext := if !force_xlsx then "xls" else "xlsx"
  match store.get export_id with
  | none =>
      { store := store, genCalls := [], reports := [], scheduled := [],
        outcome := .ret none }
  | some exp =>
      let call := GenCall.generate_export .xls ext username id_string
        export_id query group_delimiter split_select_multiples
        binary_select_multiples
      match gen call with
      | .ok genId =>
          { store := store, genCalls := [call], reports := [], scheduled := [],
            outcome := .ret (some genId) }
      | .raised e =>
          { store := store.save { exp with internal_status := .failed },
            genCalls := [call],
            reports := [{ jobType := "XLS Export", export_id := export_id,
                          username := username, id_string := id_string,
                          exc := e }],
            scheduled := [],
            outcome := .raised e }

/-- `create_csv_export`: fetches the record without guarding
`Export.DoesNotExist`, calls `generate_export`; a `NoRecordsFoundError` is
handled silently (FAILED, saved, return `None`), any other exception is
reported and re-raised after FAILED is saved. -/
def create_csv_export (gen : GenCall → GenResult) (store : Store)
    (username : String) (id_string : String) (export_id : Nat)
    (query : Option String := none) (group_delimiter : String := "/")
    (split_select_multiples : Bool := true)
    (binary_select_multiples : Bool := false) : WrapperEffects :=
  match store.get export_id with
  | none =>
      { store := store, genCalls := [], reports := [], scheduled := [],
        outcome := .raised .doesNotExist }
  | some exp =>
      let call := GenCall.generate_export .csv "csv" username id_string
        export_id query group_delimiter split_select_multiples
        binary_select_multiples
      match gen call with
      | .ok genId =>
          { store := store, genCalls := [call], reports := [], scheduled := [],
            outcome := .ret (some genId) }
      | .raised .noRecordsFound =>
          { store := store.save { exp with internal_status := .failed },
            genCalls := [call], reports := [], scheduled := [],
            outcome := .ret none }
      | .raised e =>
          { store := store.save { exp with internal_status := .failed },
            genCalls := [call],
            reports := [{ jobType := "CSV Export", export_id := export_id,
                          username := username, id_string := id_string,
                          exc := e }],
            scheduled := [],
            outcome := .raised e }

/-- `create_kml_export`: unguarded fetch, `generate_kml_export`, and a single
`except (Exception, NoRecordsFoundError)` branch that saves FAILED, reports
and re-raises. -/
def create_kml_export (gen : GenCall → GenResult) (store : Store)
    (username : String) (id_string : String) (export_id : Nat)
    (query : Option String := none) : WrapperEffects :=
  match store.get export_id with
  | none =>
      { store := store, genCalls := [], reports := [], scheduled := [],
        outcome := .raised .doesNotExist }
  | some exp =>
      let call := GenCall.generate_kml_export .kml "kml" username id_string
        export_id query
      match gen call with
      | .ok genId =>
          { store := store, genCalls := [call], reports := [], scheduled := [],
            outcome := .ret (some genId) }
      | .raised e =>
          { store := store.save { exp with internal_status := .failed },
            genCalls := [call],
            reports := [{ jobType := "KML Export", export_id := export_id,
                          username := username, id_string := id_string,
                          exc := e }],
            scheduled := [],
            outcome := .raised e }

/-- `create_zip_export`: unguarded fetch, `generate_attachments_zip_export`,
a single catch-all branch saving FAILED, reporting and re-raising, and on
success a `delete_export` job scheduled with
`countdown=settings.ZIP_EXPORT_COUNTDOWN` unless `settings.TESTING_MODE`. -/
def create_zip_export (settings : Settings) (gen : GenCall → GenResult)
    (store : Store) (username : String) (id_string : String) (export_id : Nat)
    (query : Option String := none) : WrapperEffects :=
  match store.get export_id with
  | none =>
      { store := store, genCalls := [], reports := [], scheduled := [],
        outcome := .raised .doesNotExist }
  | some exp =>
      let call := GenCall.generate_attachments_zip_export .zip "zip" username
        id_string export_id query
      match gen call with
      | .ok genId =>
          { store := store, genCalls := [call], reports := [],
            scheduled :=
              if !settings.TESTING_MODE then
                [(genId, settings.ZIP_EXPORT_COUNTDOWN)]
              else [],
            outcome := .ret (some genId) }
      | .raised e =>
          { store := store.save { exp with internal_status := .failed },
            genCalls := [call],
            reports := [{ jobType := "Zip Export", export_id := export_id,
                          username := username, id_string := id_string,
                          exc := e }],
            scheduled := [],
            outcome := .raised e }

/-- `create_csv_zip_export`: unguarded fetch, `generate_export` with extension
`zip`, single catch-all branch saving FAILED, reporting and re-raising. -/
def create_csv_zip_export (gen : GenCall → GenResult) (store : Store)
    (username : String) (id_string : String) (export_id : Nat)
    (query : Option String := none) (group_delimiter : String := "/")
    (split_select_multiples : Bool := true)
    (binary_select_multiples : Bool := false) : WrapperEffects :=
  match store.get export_id with
  | none =>
      { store := store, genCalls := [], reports := [], scheduled := [],
        outcome := .raised .doesNotExist }
  | some exp =>
      let call := GenCall.generate_export .csv_zip "zip" username id_string
        export_id query group_delimiter split_select_multiples
        binary_select_multiples
      match gen call with
      | .ok genId =>
          { store := store, genCalls := [call], reports := [], scheduled := [],
            outcome := .ret (some genId) }
      | .raised e =>
          { store := store.save { exp with internal_status := .failed },
            genCalls := [call],
            reports := [{ jobType := "CSV ZIP Export", export_id := export_id,
                          username := username, id_string := id_string,
                          exc := e }],
            scheduled := [],
            outcome := .raised e }

/-- `create_sav_zip_export`: unguarded fetch, `generate_export` with extension
`zip`, single catch-all branch saving FAILED, reporting and re-raising. -/
def create_sav_zip_export (gen : GenCall → GenResult) (store : Store)
    (username : String) (id_string : String) (export_id : Nat)
    (query : Option String := none) (group_delimiter : String := "/")
    (split_select_multiples : Bool := true)
    (binary_select_multiples : Bool := false) : WrapperEffects :=
  match store.get export_id with
  | none =>
      { store := store, genCalls := [], reports := [], scheduled := [],
        outcome := .raised .doesNotExist }
  | some exp =>
      let call := GenCall.generate_export .sav_zip "zip" username id_string
        export_id query group_delimiter split_select_multiples
        binary_select_multiples
      match gen call with
      | .ok genId =>
          { store := store, genCalls := [call], reports := [], scheduled := [],
            outcome := .ret (some genId) }
      | .raised e =>
          { store := store.save { exp with internal_status := .failed },
            genCalls := [call],
            reports := [{ jobType := "SAV ZIP Export", export_id := export_id,
                          username := username, id_string := id_string,
                          exc := e }],
            scheduled := [],
            outcome := .raised e }

/-- `create_external_export`: unguarded fetch, `generate_external_export`, and
a single `except (Exception, NoRecordsFoundError, ConnectionError)` branch
saving FAILED, reporting and re-raising. -/
def create_external_export (gen : GenCall → GenResult) (store : Store)
    (username : String) (id_string : String) (export_id : Nat)
    (query : Option String := none) (token : Option String := none)
    (meta : Option String := none) : WrapperEffects :=
  match store.get export_id with
  | none =>
      { store := store, genCalls := [], reports := [], scheduled := [],
        outcome := .raised .doesNotExist }
  | some exp =>
      let call := GenCall.generate_external_export .external username
        id_string export_id token query meta
      match gen call with
      | .ok genId =>
          { store := store, genCalls := [call], reports := [], scheduled := [],
            outcome := .ret (some genId) }
      | .raised e =>
          { store := store.save { exp with internal_status := .failed },
            genCalls := [call],
            reports := [{ jobType := "External Export",
                          export_id := export_id, username := username,
                          id_string := id_string, exc := e }],
            scheduled := [],
            outcome := .raised e }

/-- `delete_export`: fetch the record; if `Export.DoesNotExist`, fall through
to `return False`; otherwise delete it and `return True`.  Never raises. -/
def delete_export (store : Store) (export_id : Nat) : Store × Bool :=
  match store.get export_id with
  | none => (store, false)
  | some exp => (store.delete exp.id, true)

/-- Values stored in the celery kwargs dictionary built by the dispatcher
(`pyNone` models Python `None`). -/
inductive ArgVal
  | s (v : String)
  | n (v : Nat)
  | b (v : Bool)
  | pyNone
deriving DecidableEq, Repr

/-- Dictionary lookup on a kwargs/options association list. -/
def lookupArg (args : List (String × ArgVal)) (k : String) : Option ArgVal :=
  (args.find? (fun p => p.1 == k)).map Prod.snd

/-- `if options and k in options: arguments[k] = options[k]` — merge one
option key into the kwargs when the options mapping is given and holds the
key. -/
def mergeOpt (arguments : List (String × ArgVal))
    (options : Option (List (String × ArgVal))) (k : String) :
    List (String × ArgVal) :=
  match options with
  | none => arguments
  | some opts =>
      match opts.find? (fun p => p.1 == k) with
      | some p => arguments ++ [(k, p.2)]
      | none => arguments

/-- The seven celery tasks the dispatcher can submit. -/
inductive JobKind
  | xls
  | csv
  | csv_zip
  | sav_zip
  | zip
  | kml
  | external
deriving DecidableEq, Repr

/-- One `apply_async((), arguments, countdown=...)` submission. -/
structure Submission where
  job : JobKind
  args : List (String × ArgVal)
  countdown : Nat
deriving DecidableEq, Repr

/-- The handle celery returns from `apply_async`. -/
structure AsyncResult where
  task_id : String
deriving DecidableEq, Repr

/-- The celery scheduler: takes a submission and the current store and yields
the store after submission (unchanged when the job only gets enqueued, mutated
when `CELERY_ALWAYS_EAGER` runs it in-process) together with the handle. -/
def Sched : Type := Submission → Store → Store × AsyncResult

/-- Effects of one `create_async_export` call: the store it leaves behind, the
submissions it handed to the scheduler, and its return/raise outcome. -/
structure DispatchEffects where
  store : Store
  submissions : List Submission
  outcome : TaskOutcome (Option (ExportRecord × AsyncResult))
deriving Repr

/-- The routing chain of `create_async_export`: merge the option keys the
chosen export type uses into the kwargs and pick the task to submit, raising
`Export.ExportTypeError` for an unrecognised type. -/
def routeExport (arguments : List (String × ArgVal))
    (options : Option (List (String × ArgVal))) (export_type : ExportType) :
    Except PyExc (JobKind × List (String × ArgVal)) :=
  if export_type ∈ [ExportType.xls, .gdoc, .csv, .csv_zip, .sav_zip] then
    let arguments := mergeOpt arguments options "group_delimiter"
    let arguments := mergeOpt arguments options "split_select_multiples"
    let arguments := mergeOpt arguments options "binary_select_multiples"
    if export_type ∈ [ExportType.xls, .gdoc] then .ok (.xls, arguments)
    else if export_type = .csv then .ok (.csv, arguments)
    else if export_type = .csv_zip then .ok (.csv_zip, arguments)
    else if export_type = .sav_zip then .ok (.sav_zip, arguments)
    else .error .exportTypeError
  else if export_type = .zip then .ok (.zip, arguments)
  else if export_type = .kml then .ok (.kml, arguments)
  else if export_type = .external then
    let arguments := mergeOpt arguments options "token"
    let arguments := mergeOpt arguments options "meta"
    .ok (.external, arguments)
  else .error .exportTypeError

/-- The tail of `create_async_export` after routing succeeded: hand the
submission to the scheduler — `apply_async` always returns a (truthy) result,
so the `if result:` branch is always taken — re-fetch the row when
`settings.CELERY_ALWAYS_EAGER` (the eager scheduler may have run the job
in-process and made the in-memory copy stale), stamp `task_id` from the
handle, save, and return the (record, handle) pair. -/
def finishDispatch (settings : Settings) (sched : Sched) (store1 : Store)
    (exp : ExportRecord) (sub : Submission) : DispatchEffects :=
  let submitted := sched sub store1
  let store2 := submitted.1
  let result := submitted.2
  let refetched : Except PyExc ExportRecord :=
    if settings.CELERY_ALWAYS_EAGER then
      match store2.get exp.id with
      | none => .error .doesNotExist
      | some e2 => .ok e2
    else .ok exp
  match refetched with
  | .error e =>
      { store := store2, submissions := [sub], outcome := .raised e }
  | .ok e2 =>
      let stamped := { e2 with task_id := some result.task_id }
      { store := store2.save stamped, submissions := [sub],
        outcome := .ret (some (stamped, result)) }

/-- The base kwargs dictionary `create_async_export` builds before routing:
owner username, form identifier, the new record's id, and the query
filter. -/
def baseArgs (xform : XForm) (export_id : Nat) (query : Option String) :
    List (String × ArgVal) :=
  [("username", .s xform.user.username), ("id_string", .s xform.id_string),
   ("export_id", .n export_id),
   ("query", match query with | none => .pyNone | some q => .s q)]

/-- `create_async_export`: create an `Export` row, build the kwargs (merging
only the option keys relevant to the export type), route to exactly one task
submitted with `countdown=10` (raising `Export.ExportTypeError` for an
unrecognised type), then stamp the re-fetched row with the handle's task id
and return the (record, handle) pair. -/
def create_async_export (settings : Settings) (sched : Sched) (store : Store)
    (xform : XForm) (export_type : ExportType) (query : Option String)
    (force_xlsx : Bool)
    (options : Option (List (String × ArgVal)) := none) : DispatchEffects :=
  let created := store.create xform export_type
  let store1 := created.1
  let exp := created.2
  let arguments := baseArgs xform exp.id query
  match routeExport arguments options export_type with
  | .error e => { store := store1, submissions := [], outcome := .raised e }
  | .ok routedJob =>
      finishDispatch settings sched store1 exp
        { job := routedJob.1, args := routedJob.2, countdown := 10 }

/-- `SYNC_MONGO_MANUAL_INSTRUCTIONS` from `tasks.py` (the Python triple-quoted
string; the backslash-newline line continuations join
`[id_string]--settings=...`). -/
def SYNC_MONGO_MANUAL_INSTRUCTIONS : String :=
  "\nTo re-sync manually, ssh into the server and run:\n\npython manage.py sync_mongo -r [username] [id_string]--settings=\x27settings.local_settings\x27\n\nTo force complete delete and re-creation, use the -a option:\n\npython manage.py sync_mongo -ra [username] [id_string]--settings=\x27settings.local_settings\x27\n"

/-- The literal part of `REMONGO_PATTERN`
(`r'Total # of records to remongo: -?[1-9]+'`), lower-cased for the
`re.IGNORECASE` match. -/
def remongoLiteral : List Char := "total # of records to remongo: ".data

/-- Case-insensitive match of the pattern literal against the start of the
text, returning the remaining text on success. -/
def ciLitMatch : List Char → List Char → Option (List Char)
  | [], rest => some rest
  | _ :: _, [] => none
  | p :: ps, c :: cs => if c.toLower = p then ciLitMatch ps cs else none

/-- Whether a character is in the regex class `[1-9]`. -/
def nonzeroDigit (c : Char) : Bool := 49 ≤ c.toNat && c.toNat ≤ 57

/-- Match of the pattern tail `-?[1-9]+` at the start of the text: an optional
minus sign followed by at least one digit in `1`–`9`. -/
def remongoTail : List Char → Bool
  | [] => false
  | c :: cs =>
      if c = '-' then
        match cs with
        | [] => false
        | d :: _ => nonzeroDigit d
      else nonzeroDigit c

/-- `REMONGO_PATTERN.search`: does the pattern match at some position of the
text? -/
def remongoSearchAux : List Char → Bool
  | [] => false
  | c :: rest =>
      (match ciLitMatch remongoLiteral (c :: rest) with
       | some tail => remongoTail tail
       | none => false) || remongoSearchAux rest

/-- `REMONGO_PATTERN.search(s)` as a Boolean. -/
def remongoSearch (s : String) : Bool := remongoSearchAux s.data

/-- One `mail_admins(subject, body)` call. -/
structure Email where
  subject : String
  body : String
deriving DecidableEq, Repr

/-- Effects of one `email_mongo_sync_status` run: the `mongo_sync_status`
calls it made (their `remongo` flags, in order) and the emails it sent. -/
structure SyncStatusEffects where
  probeCalls : List Bool
  emails : List Email
deriving DecidableEq, Repr

/-- `email_mongo_sync_status`: probe the sync status, re-probe with
`remongo=True` exactly when `REMONGO_PATTERN` matches the before-report
(otherwise the after-report is the literal `"No synchronization needed"`),
and mail the admins the two reports and the manual instructions joined with
blank lines. -/
def email_mongo_sync_status (mongo_sync_status : Bool → String) :
    SyncStatusEffects :=
  let before_report := mongo_sync_status false
  if remongoSearch before_report then
    let after_report := mongo_sync_status true
    { probeCalls := [false, true],
      emails := [{ subject := "Mongo DB sync status",
                   body := String.intercalate "\n\n"
                     [before_report, after_report,
                      SYNC_MONGO_MANUAL_INSTRUCTIONS] }] }
  else
    let after_report := "No synchronization needed"
    { probeCalls := [false],
      emails := [{ subject := "Mongo DB sync status",
                   body := String.intercalate "\n\n"
                     [before_report, after_report,
                      SYNC_MONGO_MANUAL_INSTRUCTIONS] }] }

/-- Kwargs extraction: a string value under `k`, else the default. -/
def argStrD (args : List (String × ArgVal)) (k : String) (d : String) :
    String :=
  match lookupArg args k with
  | some (.s v) => v
  | _ => d

/-- Kwargs extraction: a numeric value under `k`, else the default. -/
def argNatD (args : List (String × ArgVal)) (k : String) (d : Nat) : Nat :=
  match lookupArg args k with
  | some (.n v) => v
  | _ => d

/-- Kwargs extraction: a Boolean value under `k`, else the default. -/
def argBoolD (args : List (String × ArgVal)) (k : String) (d : Bool) : Bool :=
  match lookupArg args k with
  | some (.b v) => v
  | _ => d

/-- Kwargs extraction: an optional string under `k` (`pyNone` and an absent
key both give Python `None`). -/
def argOptStr (args : List (String × ArgVal)) (k : String) : Option String :=
  match lookupArg args k with
  | some (.s v) => some v
  | _ => none

/-- Celery invoking `create_xls_export(**sub.args)`: each parameter is taken
from the kwargs dictionary, falling back to the Python signature's default
when the key is absent (`query=None`, `force_xlsx=True`,
`group_delimiter='/'`, `split_select_multiples=True`,
`binary_select_multiples=False`; `username`, `id_string` and `export_id` are
always supplied by the dispatcher, so their fallbacks are immaterial). -/
def runXlsSubmission (gen : GenCall → GenResult) (store : Store)
    (sub : Submission) : WrapperEffects :=
  create_xls_export gen store
    (argStrD sub.args "username" "")
    (argStrD sub.args "id_string" "")
    (argNatD sub.args "export_id" 0)
    (argOptStr sub.args "query")
    (argBoolD sub.args "force_xlsx" true)
    (argStrD sub.args "group_delimiter" "/")
    (argBoolD sub.args "split_select_multiples" true)
    (argBoolD sub.args "binary_select_multiples" false)

/-- The option keys the dispatcher merges into the kwargs for each export
type, in merge order (read off the branches of `create_async_export`). -/
def relevantKeys : ExportType → List String
  | .xls | .gdoc | .csv | .csv_zip | .sav_zip =>
      ["group_delimiter", "split_select_multiples", "binary_select_multiples"]
  | .external => ["token", "meta"]
  | _ => []

/-- `options and k in options` as a Boolean. -/
def optHasKey (options : Option (List (String × ArgVal))) (k : String) :
    Bool :=
  match options with
  | none => false
  | some opts => (opts.find? (fun p => p.1 == k)).isSome

/-- The store with no rows. -/
def emptyStore : Store := { records := [], nextId := 0 }

/-- A sample form. -/
def sampleXForm : XForm := { user := { username := "bob" }, id_string := "form1" }

/-- A sample pending export row. -/
def sampleRecord : ExportRecord :=
  { id := 0, xform := sampleXForm, export_type := .xls,
    internal_status := .pending, task_id := none }

/-- A store holding the sample row. -/
def sampleStore : Store := { records := [sampleRecord], nextId := 1 }

/-- A scheduler that only enqueues: the store is untouched and a fixed handle
is returned (celery in its normal asynchronous configuration). -/
def pureSched : Sched := fun _ st => (st, { task_id := "task-1" })

/-- A scheduler that models `CELERY_ALWAYS_EAGER`: it runs the job before
returning, here a job that marks its export record FAILED (as a wrapper does
on an empty result). -/
def eagerFailingSched : Sched := fun sub st =>
  (match lookupArg sub.args "export_id" with
   | some (.n i) =>
       match st.get i with
       | some r => st.save { r with internal_status := .failed }
       | none => st
   | _ => st,
   { task_id := "eager-task" })

/-- A generator that always succeeds with export id 1. -/
def genOk : GenCall → GenResult := fun _ => .ok 1

/-- A generator that always raises the no-records signal. -/
def genNoRecords : GenCall → GenResult := fun _ => .raised .noRecordsFound

/-- A mongo probe whose before-report requires a re-sync. -/
def syncProbeNeedy : Bool → String := fun b =>
  if b then "All records now synced" else "Total # of records to remongo: 12"

/-- A mongo probe whose before-report shows nothing to re-sync. -/
def syncProbeClean : Bool → String := fun _ =>
  "Total # of records to remongo: 0"

/-- The submission the dispatcher produces for a ZIP export of the sample
form on the empty store (no option keys apply to ZIP). -/
def subZipSample : Submission :=
  { job := .zip,
    args := [("username", .s "bob"), ("id_string", .s "form1"),
             ("export_id", .n 0), ("query", .pyNone)],
    countdown := 10 }

/-! ### Helper lemmas about the record store -/

/-- A fetched row carries the fetched primary key. -/
theorem store_get_some_id {s : Store} {i : Nat} {r : ExportRecord}
    (h : s.get i = some r) : r.id = i := by
  unfold Store.get at h
  have := List.find?_some h
  simpa using this

/-- After deleting primary key `i`, fetching `i` finds nothing. -/
theorem store_delete_get (s : Store) (i : Nat) : (s.delete i).get i = none := by
  show (s.records.filter (fun r => !(r.id == i))).find? (fun r => r.id == i) =
    none
  rw [List.find?_eq_none]
  intro x hx
  simp only [List.mem_filter] at hx
  simpa using hx.2

/-! ### Claim theorems -/

/-- Claim C8: the cleanup job is idempotent: called with an id whose record
exists it deletes the record and returns `true`; called with an id whose
record does not exist (including a second call for the same id) it returns
`false`; it raises no error in either case (its outcome is a plain Boolean,
the `Export.DoesNotExist` case being caught and turned into `False`). -/
theorem delete_export_idempotent (store : Store) (export_id : Nat) :
    (∀ exp, store.get export_id = some exp →
      (delete_export store export_id).2 = true ∧
      (delete_export store export_id).1.get export_id = none ∧
      delete_export (delete_export store export_id).1 export_id =
        ((delete_export store export_id).1, false)) ∧
    (store.get export_id = none →
      delete_export store export_id = (store, false)) := by
  constructor
  · intro exp hget
    have hid : exp.id = export_id := store_get_some_id hget
    have h1 : delete_export store export_id = (store.delete exp.id, true) := by
      unfold delete_export
      rw [hget]
    have hnone : (store.delete exp.id).get export_id = none := by
      rw [hid]; exact store_delete_get store export_id
    refine ⟨by rw [h1], by rw [h1]; exact hnone, ?_⟩
    rw [h1]
    unfold delete_export
    rw [hnone]
  · intro hget
    unfold delete_export
    rw [hget]

/-- Witness for C8 at a concrete store: deleting the sample record succeeds,
the record is gone afterwards, and the second run reports `false`. -/
theorem delete_export_idempotent_witness :
    (delete_export sampleStore 0).2 = true ∧
    (delete_export sampleStore 0).1.get 0 = none ∧
    delete_export (delete_export sampleStore 0).1 0 =
      ((delete_export sampleStore 0).1, false) :=
  (delete_export_idempotent sampleStore 0).1 sampleRecord (by decide)

/-- Claim C5: dispatching any export type outside the supported enumeration
raises `Export.ExportTypeError` synchronously, submits no job to the
scheduler, and the record created by the dispatch stays in the store pending
with no task identifier set. -/
theorem dispatch_unsupported_type (settings : Settings) (sched : Sched)
    (store : Store) (xform : XForm) (tag : String) (query : Option String)
    (fx : Bool) (options : Option (List (String × ArgVal))) :
    create_async_export settings sched store xform (.other tag) query fx
        options =
      { store :=
          { records := store.records ++
              [{ id := store.nextId, xform := xform,
                 export_type := .other tag, internal_status := .pending,
                 task_id := none }],
            nextId := store.nextId + 1 },
        submissions := [],
        outcome := .raised .exportTypeError } := by
  simp [create_async_export, routeExport, Store.create]

/-- Counterexample to claim C2: the CSV wrapper invoked with a record id
absent from the store raises `Export.DoesNotExist` instead of returning a
null result (its fetch on line 135 of `tasks.py` is unguarded). -/
theorem csv_wrapper_missing_record_raises :
    (create_csv_export genOk emptyStore "bob" "form1" 5 none "/" true
        false).outcome = .raised .doesNotExist := by decide

/-- Claim C2 amended: only the spreadsheet (XLS) wrapper returns a null
result without error when the record id is absent; the CSV, KML,
attachment-archive, CSV-archive, SAV-archive and external wrappers raise
`Export.DoesNotExist`.  In all seven cases no write is performed, no
generator is invoked and nothing is reported or scheduled. -/
theorem wrapper_missing_record (gen : GenCall → GenResult)
    (settings : Settings) (store : Store) (u i : String) (export_id : Nat)
    (query : Option String) (fx : Bool) (gd : String) (ssm bsm : Bool)
    (token meta : Option String)
    (hget : store.get export_id = none) :
    create_xls_export gen store u i export_id query fx gd ssm bsm =
      { store := store, genCalls := [], reports := [], scheduled := [],
        outcome := .ret none } ∧
    create_csv_export gen store u i export_id query gd ssm bsm =
      { store := store, genCalls := [], reports := [], scheduled := [],
        outcome := .raised .doesNotExist } ∧
    create_kml_export gen store u i export_id query =
      { store := store, genCalls := [], reports := [], scheduled := [],
        outcome := .raised .doesNotExist } ∧
    create_zip_export settings gen store u i export_id query =
      { store := store, genCalls := [], reports := [], scheduled := [],
        outcome := .raised .doesNotExist } ∧
    create_csv_zip_export gen store u i export_id query gd ssm bsm =
      { store := store, genCalls := [], reports := [], scheduled := [],
        outcome := .raised .doesNotExist } ∧
    create_sav_zip_export gen store u i export_id query gd ssm bsm =
      { store := store, genCalls := [], reports := [], scheduled := [],
        outcome := .raised .doesNotExist } ∧
    create_external_export gen store u i export_id query token meta =
      { store := store, genCalls := [], reports := [], scheduled := [],
        outcome := .raised .doesNotExist } := by
  refine ⟨?_, ?_, ?_, ?_, ?_, ?_, ?_⟩ <;>
    simp [create_xls_export, create_csv_export, create_kml_export,
      create_zip_export, create_csv_zip_export, create_sav_zip_export,
      create_external_export, hget]

/-- Witness for the amended C2: the XLS wrapper on an absent id returns a
null result with no effects. -/
theorem wrapper_missing_record_witness :
    create_xls_export genOk emptyStore "bob" "form1" 5 none true "/" true
        false =
      { store := emptyStore, genCalls := [], reports := [], scheduled := [],
        outcome := .ret none } :=
  (wrapper_missing_record genOk ⟨false, false, 0⟩ emptyStore "bob" "form1" 5
    none true "/" true false none none (by decide)).1

/-- Counterexample to claim C1: on the no-records signal the spreadsheet
(XLS) wrapper sends an operator report and re-raises the exception instead
of returning normally with no notification (`except (Exception,
NoRecordsFoundError)` handles both alike in `tasks.py`). -/
theorem xls_wrapper_no_records_escalates :
    (create_xls_export genNoRecords sampleStore "bob" "form1" 0 none true "/"
        true false).reports.length = 1 ∧
    (create_xls_export genNoRecords sampleStore "bob" "form1" 0 none true "/"
        true false).outcome = .raised .noRecordsFound := by decide

/-- Claim C1 amended: only the CSV wrapper treats the no-records signal as a
benign empty result — it marks the record FAILED, persists it, sends no
operator report, and returns normally (`None`); every other wrapper (XLS,
KML, attachment archive, CSV archive, SAV archive, external) also marks the
record FAILED and persists it, but additionally sends one operator report and
re-raises the signal. -/
theorem wrapper_no_records (settings : Settings) (store : Store)
    (u i : String) (export_id : Nat) (exp : ExportRecord)
    (query : Option String) (fx : Bool) (gd : String) (ssm bsm : Bool)
    (token meta : Option String)
    (hget : store.get export_id = some exp) :
    create_csv_export genNoRecords store u i export_id query gd ssm bsm =
      { store := store.save { exp with internal_status := .failed },
        genCalls := [.generate_export .csv "csv" u i export_id query gd ssm
          bsm],
        reports := [], scheduled := [], outcome := .ret none } ∧
    create_xls_export genNoRecords store u i export_id query fx gd ssm bsm =
      { store := store.save { exp with internal_status := .failed },
        genCalls := [.generate_export .xls (if !fx then "xls" else "xlsx") u i
          export_id query gd ssm bsm],
        reports := [⟨"XLS Export", export_id, u, i, .noRecordsFound⟩],
        scheduled := [], outcome := .raised .noRecordsFound } ∧
    create_kml_export genNoRecords store u i export_id query =
      { store := store.save { exp with internal_status := .failed },
        genCalls := [.generate_kml_export .kml "kml" u i export_id query],
        reports := [⟨"KML Export", export_id, u, i, .noRecordsFound⟩],
        scheduled := [], outcome := .raised .noRecordsFound } ∧
    create_zip_export settings genNoRecords store u i export_id query =
      { store := store.save { exp with internal_status := .failed },
        genCalls := [.generate_attachments_zip_export .zip "zip" u i export_id
          query],
        reports := [⟨"Zip Export", export_id, u, i, .noRecordsFound⟩],
        scheduled := [], outcome := .raised .noRecordsFound } ∧
    create_csv_zip_export genNoRecords store u i export_id query gd ssm bsm =
      { store := store.save { exp with internal_status := .failed },
        genCalls := [.generate_export .csv_zip "zip" u i export_id query gd
          ssm bsm],
        reports := [⟨"CSV ZIP Export", export_id, u, i, .noRecordsFound⟩],
        scheduled := [], outcome := .raised .noRecordsFound } ∧
    create_sav_zip_export genNoRecords store u i export_id query gd ssm bsm =
      { store := store.save { exp with internal_status := .failed },
        genCalls := [.generate_export .sav_zip "zip" u i export_id query gd
          ssm bsm],
        reports := [⟨"SAV ZIP Export", export_id, u, i, .noRecordsFound⟩],
        scheduled := [], outcome := .raised .noRecordsFound } ∧
    create_external_export genNoRecords store u i export_id query token meta =
      { store := store.save { exp with internal_status := .failed },
        genCalls := [.generate_external_export .external u i export_id token
          query meta],
        reports := [⟨"External Export", export_id, u, i, .noRecordsFound⟩],
        scheduled := [], outcome := .raised .noRecordsFound } := by
  refine ⟨?_, ?_, ?_, ?_, ?_, ?_, ?_⟩ <;>
    simp [create_xls_export, create_csv_export, create_kml_export,
      create_zip_export, create_csv_zip_export, create_sav_zip_export,
      create_external_export, genNoRecords, hget]

/-- Witness for the amended C1: the CSV wrapper on the sample store marks the
record FAILED, reports nothing and returns `None`. -/
theorem wrapper_no_records_witness :
    create_csv_export genNoRecords sampleStore "bob" "form1" 0 none "/" true
        false =
      { store := Store.save sampleStore
          { sampleRecord with internal_status := .failed },
        genCalls := [.generate_export .csv "csv" "bob" "form1" 0 none "/" true
          false],
        reports := [], scheduled := [], outcome := .ret none } :=
  (wrapper_no_records ⟨false, false, 0⟩ sampleStore "bob" "form1" 0
    sampleRecord none true "/" true false none none (by decide)).1

/-- Claim C3: for every wrapper, when the generator raises any exception
other than the no-records signal, the wrapper saves the record with
`internal_status = FAILED` (the persist happens before the report and the
re-raise), sends exactly one operator report carrying the job type, record
id, owner, form identifier and the exception, and re-raises the exception. -/
theorem wrapper_unexpected_exception (settings : Settings) (store : Store)
    (u i : String) (export_id : Nat) (exp : ExportRecord)
    (query : Option String) (fx : Bool) (gd : String) (ssm bsm : Bool)
    (token meta : Option String) (e : PyExc)
    (hget : store.get export_id = some exp)
    (he : e ≠ .noRecordsFound) :
    create_xls_export (fun _ => .raised e) store u i export_id query fx gd ssm
        bsm =
      { store := store.save { exp with internal_status := .failed },
        genCalls := [.generate_export .xls (if !fx then "xls" else "xlsx") u i
          export_id query gd ssm bsm],
        reports := [⟨"XLS Export", export_id, u, i, e⟩],
        scheduled := [], outcome := .raised e } ∧
    create_csv_export (fun _ => .raised e) store u i export_id query gd ssm
        bsm =
      { store := store.save { exp with internal_status := .failed },
        genCalls := [.generate_export .csv "csv" u i export_id query gd ssm
          bsm],
        reports := [⟨"CSV Export", export_id, u, i, e⟩],
        scheduled := [], outcome := .raised e } ∧
    create_kml_export (fun _ => .raised e) store u i export_id query =
      { store := store.save { exp with internal_status := .failed },
        genCalls := [.generate_kml_export .kml "kml" u i export_id query],
        reports := [⟨"KML Export", export_id, u, i, e⟩],
        scheduled := [], outcome := .raised e } ∧
    create_zip_export settings (fun _ => .raised e) store u i export_id
        query =
      { store := store.save { exp with internal_status := .failed },
        genCalls := [.generate_attachments_zip_export .zip "zip" u i export_id
          query],
        reports := [⟨"Zip Export", export_id, u, i, e⟩],
        scheduled := [], outcome := .raised e } ∧
    create_csv_zip_export (fun _ => .raised e) store u i export_id query gd
        ssm bsm =
      { store := store.save { exp with internal_status := .failed },
        genCalls := [.generate_export .csv_zip "zip" u i export_id query gd
          ssm bsm],
        reports := [⟨"CSV ZIP Export", export_id, u, i, e⟩],
        scheduled := [], outcome := .raised e } ∧
    create_sav_zip_export (fun _ => .raised e) store u i export_id query gd
        ssm bsm =
      { store := store.save { exp with internal_status := .failed },
        genCalls := [.generate_export .sav_zip "zip" u i export_id query gd
          ssm bsm],
        reports := [⟨"SAV ZIP Export", export_id, u, i, e⟩],
        scheduled := [], outcome := .raised e } ∧
    create_external_export (fun _ => .raised e) store u i export_id query
        token meta =
      { store := store.save { exp with internal_status := .failed },
        genCalls := [.generate_external_export .external u i export_id token
          query meta],
        reports := [⟨"External Export", export_id, u, i, e⟩],
        scheduled := [], outcome := .raised e } := by
  refine ⟨?_, ?_, ?_, ?_, ?_, ?_, ?_⟩ <;>
    cases e <;>
      simp_all [create_xls_export, create_csv_export, create_kml_export,
        create_zip_export, create_csv_zip_export, create_sav_zip_export,
        create_external_export, hget]

/-- Witness for C3: the CSV wrapper on the sample store, with a generator
raising an unexpected error, saves FAILED, reports once and re-raises. -/
theorem wrapper_unexpected_exception_witness :
    create_csv_export (fun _ => .raised (.other "boom")) sampleStore "bob"
        "form1" 0 none "/" true false =
      { store := Store.save sampleStore
          { sampleRecord with internal_status := .failed },
        genCalls := [.generate_export .csv "csv" "bob" "form1" 0 none "/" true
          false],
        reports := [⟨"CSV Export", 0, "bob", "form1", .other "boom"⟩],
        scheduled := [], outcome := .raised (.other "boom") } :=
  (wrapper_unexpected_exception ⟨false, false, 0⟩ sampleStore "bob" "form1" 0
    sampleRecord none true "/" true false none none (.other "boom")
    (by decide) (by decide)).2.1

/-- Claim C6: when the attachment-archive wrapper's generator succeeds, the
wrapper returns the generated output's identifier, leaves the store (and so
the record's status) untouched, reports nothing, and schedules exactly one
`delete_export` job with `countdown = settings.ZIP_EXPORT_COUNTDOWN` — unless
`settings.TESTING_MODE`, in which case nothing is scheduled. -/
theorem zip_wrapper_success (settings : Settings) (store : Store)
    (u i : String) (export_id : Nat) (exp : ExportRecord)
    (query : Option String) (genId : Nat)
    (hget : store.get export_id = some exp) :
    create_zip_export settings (fun _ => .ok genId) store u i export_id
        query =
      { store := store,
        genCalls := [.generate_attachments_zip_export .zip "zip" u i export_id
          query],
        reports := [],
        scheduled :=
          if settings.TESTING_MODE then []
          else [(genId, settings.ZIP_EXPORT_COUNTDOWN)],
        outcome := .ret (some genId) } := by
  cases hT : settings.TESTING_MODE <;>
    simp [create_zip_export, hget, hT]

/-- Witness for C6: on the sample store outside testing mode, the zip wrapper
returns the generated id and schedules one delayed `delete_export`. -/
theorem zip_wrapper_success_witness :
    create_zip_export ⟨false, false, 14400⟩ (fun _ => .ok 9) sampleStore "bob"
        "form1" 0 none =
      { store := sampleStore,
        genCalls := [.generate_attachments_zip_export .zip "zip" "bob" "form1"
          0 none],
        reports := [], scheduled := [(9, 14400)],
        outcome := .ret (some 9) } := by
  have h := zip_wrapper_success ⟨false, false, 14400⟩ sampleStore "bob"
    "form1" 0 sampleRecord none 9 (by decide)
  simpa using h

/-- Claim C7: `email_mongo_sync_status` re-invokes the comparison routine
with `remongo=True` exactly when `REMONGO_PATTERN` (nonzero remongo count,
case-insensitive) matches the before-report; otherwise the after-report is
the literal `"No synchronization needed"`.  In both cases it sends the
admins exactly one email whose body is the before-report, the after-report
and the fixed manual-recovery instructions joined by blank lines. -/
theorem email_mongo_sync_status_spec (mongo_sync_status : Bool → String) :
    (remongoSearch (mongo_sync_status false) = true →
      email_mongo_sync_status mongo_sync_status =
        { probeCalls := [false, true],
          emails := [{ subject := "Mongo DB sync status",
                       body := String.intercalate "\n\n"
                         [mongo_sync_status false, mongo_sync_status true,
                          SYNC_MONGO_MANUAL_INSTRUCTIONS] }] }) ∧
    (remongoSearch (mongo_sync_status false) = false →
      email_mongo_sync_status mongo_sync_status =
        { probeCalls := [false],
          emails := [{ subject := "Mongo DB sync status",
                       body := String.intercalate "\n\n"
                         [mongo_sync_status false,
                          "No synchronization needed",
                          SYNC_MONGO_MANUAL_INSTRUCTIONS] }] }) := by
  constructor <;> intro h <;> simp [email_mongo_sync_status, h]

/-- Witness for C7: a before-report with a nonzero remongo count triggers the
reconcile probe, a zero count does not. -/
theorem email_mongo_sync_status_spec_witness :
    (email_mongo_sync_status syncProbeNeedy).probeCalls = [false, true] ∧
    (email_mongo_sync_status syncProbeClean).probeCalls = [false] := by
  constructor
  · rw [(email_mongo_sync_status_spec syncProbeNeedy).1 (by decide)]
  · rw [(email_mongo_sync_status_spec syncProbeClean).2 (by decide)]

/-- Finding a freshly appended row: rows with smaller ids do not match. -/
theorem find_append_fresh (l : List ExportRecord) (r : ExportRecord) (n : Nat)
    (hl : ∀ x ∈ l, x.id < n) (hr : r.id = n) :
    (l ++ [r]).find? (fun x => x.id == n) = some r := by
  induction l with
  | nil => simp [hr]
  | cons a t ih =>
      have ha : ¬((fun x : ExportRecord => x.id == n) a = true) := by
        simpa using Nat.ne_of_lt (hl a (List.mem_cons_self a t))
      rw [List.cons_append, List.find?_cons_of_neg]
      · exact ih fun x hx => hl x (List.mem_cons_of_mem a hx)
      · exact ha

/-- After `create`, fetching the fresh id returns the created row. -/
theorem store_create_get (store : Store) (xform : XForm) (t : ExportType)
    (hwf : ∀ r ∈ store.records, r.id < store.nextId) :
    (store.create xform t).1.get store.nextId =
      some (store.create xform t).2 := by
  show (store.records ++ [(store.create xform t).2]).find?
    (fun r => r.id == store.nextId) = some (store.create xform t).2
  exact find_append_fresh store.records _ store.nextId hwf rfl

/-- Saving a row that shares its id with a freshly appended row replaces only
that row. -/
theorem save_fresh (l : List ExportRecord) (r r' : ExportRecord) (m : Nat)
    (hl : ∀ x ∈ l, x.id < r.id) (hr : r'.id = r.id) :
    Store.save { records := l ++ [r], nextId := m } r' =
      { records := l ++ [r'], nextId := m } := by
  unfold Store.save
  have hrr : (r.id == r'.id) = true := by simp [hr]
  have hany : ((l ++ [r]).any fun x => x.id == r'.id) = true := by
    simp [List.any_append, hrr]
  have h1 : ∀ x ∈ l, (if x.id == r'.id then r' else x) = id x := by
    intro x hx
    have hne : (x.id == r'.id) = false := by
      rw [hr]
      simpa using Nat.ne_of_lt (hl x hx)
    simp [hne]
  have hmap : ((l ++ [r]).map fun x => if x.id == r'.id then r' else x) =
      l ++ [r'] := by
    rw [List.map_append, List.map_congr_left h1, List.map_id]
    congr 1
    show [if r.id == r'.id then r' else r] = [r']
    rw [if_pos hrr]
  rw [if_pos hany, hmap]

/-- A key already bound in the left list is looked up there. -/
theorem lookupArg_append_left (args1 args2 : List (String × ArgVal))
    (k : String) (h : (lookupArg args1 k).isSome) :
    lookupArg (args1 ++ args2) k = lookupArg args1 k := by
  unfold lookupArg at *
  rw [List.find?_append]
  cases hf : args1.find? (fun p => p.1 == k) with
  | none => rw [hf] at h; simp at h
  | some p => simp [hf]

/-- `mergeOpt` does not change the binding of a key that is already bound. -/
theorem lookupArg_mergeOpt (args : List (String × ArgVal))
    (options : Option (List (String × ArgVal))) (k k' : String)
    (h : (lookupArg args k').isSome) :
    lookupArg (mergeOpt args options k) k' = lookupArg args k' := by
  cases options with
  | none => simp [mergeOpt]
  | some opts =>
      cases hf : opts.find? (fun p => p.1 == k) with
      | none => simp [mergeOpt, hf]
      | some p =>
          rw [show mergeOpt args (some opts) k = args ++ [(k, p.2)] from by
            simp [mergeOpt, hf]]
          exact lookupArg_append_left args [(k, p.2)] k' h

/-- `mergeOpt` on key `k` does not bind a different key `k'`. -/
theorem lookupArg_mergeOpt_ne (args : List (String × ArgVal))
    (options : Option (List (String × ArgVal))) (k k' : String)
    (hne : (k == k') = false) :
    lookupArg (mergeOpt args options k) k' = lookupArg args k' := by
  cases options with
  | none => simp [mergeOpt]
  | some opts =>
      cases hf : opts.find? (fun p => p.1 == k) with
      | none => simp [mergeOpt, hf]
      | some p =>
          rw [show mergeOpt args (some opts) k = args ++ [(k, p.2)] from by
            simp [mergeOpt, hf]]
          unfold lookupArg
          rw [List.find?_append]
          cases hb : args.find? (fun q => q.1 == k') with
          | some q => simp [hb]
          | none => simp [hb, hne]

/-- The base kwargs always bind `export_id` to the record id. -/
theorem lookupArg_baseArgs_export_id (xform : XForm) (eid : Nat)
    (query : Option String) :
    lookupArg (baseArgs xform eid query) "export_id" = some (.n eid) := by
  cases query <;> rfl

/-- With a scheduler that only enqueues, `finishDispatch` re-fetches the
created row (trivially unchanged), stamps it with the handle's task id, saves
it and returns the pair. -/
theorem finishDispatch_spec (settings : Settings) (sched : Sched)
    (store1 : Store) (exp : ExportRecord) (sub : Submission)
    (hpure : ∀ s st, (sched s st).1 = st)
    (hget : store1.get exp.id = some exp) :
    finishDispatch settings sched store1 exp sub =
      { store := store1.save
          { exp with task_id := some (sched sub store1).2.task_id },
        submissions := [sub],
        outcome := .ret
          (some ({ exp with task_id := some (sched sub store1).2.task_id },
                 (sched sub store1).2)) } := by
  unfold finishDispatch
  cases hE : settings.CELERY_ALWAYS_EAGER <;> simp [hpure, hget, hE]

/-- `finishDispatch` records exactly the one submission it was given. -/
theorem finishDispatch_submissions (settings : Settings) (sched : Sched)
    (store1 : Store) (exp : ExportRecord) (sub : Submission) :
    (finishDispatch settings sched store1 exp sub).submissions = [sub] := by
  unfold finishDispatch
  cases hE : settings.CELERY_ALWAYS_EAGER
  · simp [hE]
  · cases hg : (sched sub store1).1.get exp.id <;> simp [hE, hg]

/-- The dispatcher's submissions are determined by the routing result. -/
theorem dispatch_submissions_eq (settings : Settings) (sched : Sched)
    (store : Store) (xform : XForm) (t : ExportType) (query : Option String)
    (fx : Bool) (options : Option (List (String × ArgVal))) :
    (create_async_export settings sched store xform t query fx
      options).submissions =
      (match routeExport (baseArgs xform store.nextId query) options t with
       | .error _ => []
       | .ok routedJob =>
           [{ job := routedJob.1, args := routedJob.2, countdown := 10 }]) := by
  simp only [create_async_export, Store.create]
  cases hr : routeExport (baseArgs xform store.nextId query) options t with
  | error e => simp [hr]
  | ok rj => simp [hr, finishDispatch_submissions]

/-- Core of the successful-dispatch property, shared by all supported export
types: once routing yields one submission whose kwargs bind `export_id` to the
fresh id, the dispatch creates exactly one record, submits that one job, and
returns the stamped record. -/
theorem dispatch_success_core (settings : Settings) (sched : Sched)
    (store : Store) (xform : XForm) (t : ExportType) (query : Option String)
    (fx : Bool) (options : Option (List (String × ArgVal))) (sub : Submission)
    (hpure : ∀ s st, (sched s st).1 = st)
    (hwf : ∀ r ∈ store.records, r.id < store.nextId)
    (hD : create_async_export settings sched store xform t query fx options =
      finishDispatch settings sched (store.create xform t).1
        (store.create xform t).2 sub)
    (hargs : lookupArg sub.args "export_id" = some (.n store.nextId))
    (hcd : sub.countdown = 10) :
    ∃ sub' res stamped,
      (create_async_export settings sched store xform t query fx
        options).submissions = [sub'] ∧
      sub'.countdown = 10 ∧
      lookupArg sub'.args "export_id" = some (.n store.nextId) ∧
      (create_async_export settings sched store xform t query fx
        options).outcome = .ret (some (stamped, res)) ∧
      stamped.task_id = some res.task_id ∧
      stamped.id = store.nextId ∧
      (create_async_export settings sched store xform t query fx
        options).store =
        { records := store.records ++ [stamped],
          nextId := store.nextId + 1 } := by
  have hget : (store.create xform t).1.get (store.create xform t).2.id =
      some (store.create xform t).2 := store_create_get store xform t hwf
  rw [hD, finishDispatch_spec _ _ _ _ _ hpure hget]
  refine ⟨sub, (sched sub (store.create xform t).1).2,
    { (store.create xform t).2 with
        task_id := some (sched sub (store.create xform t).1).2.task_id },
    rfl, hcd, hargs, rfl, rfl, rfl, ?_⟩
  exact save_fresh store.records (store.create xform t).2 _
    (store.nextId + 1) (fun x hx => hwf x hx) rfl

/-- After the three spreadsheet-family merges, `export_id` is still bound to
the record id. -/
theorem lookupArg_merged3_export_id (xform : XForm) (eid : Nat)
    (query : Option String) (options : Option (List (String × ArgVal))) :
    lookupArg (mergeOpt (mergeOpt (mergeOpt (baseArgs xform eid query)
      options "group_delimiter") options "split_select_multiples") options
      "binary_select_multiples") "export_id" = some (.n eid) := by
  have h0 := lookupArg_baseArgs_export_id xform eid query
  have h1 : lookupArg (mergeOpt (baseArgs xform eid query) options
      "group_delimiter") "export_id" = some (.n eid) := by
    rw [lookupArg_mergeOpt _ _ _ _ (by rw [h0]; rfl), h0]
  have h2 : lookupArg (mergeOpt (mergeOpt (baseArgs xform eid query) options
      "group_delimiter") options "split_select_multiples") "export_id" =
      some (.n eid) := by
    rw [lookupArg_mergeOpt _ _ _ _ (by rw [h1]; rfl), h1]
  rw [lookupArg_mergeOpt _ _ _ _ (by rw [h2]; rfl), h2]

/-- After the two external-export merges, `export_id` is still bound to the
record id. -/
theorem lookupArg_merged2_export_id (xform : XForm) (eid : Nat)
    (query : Option String) (options : Option (List (String × ArgVal))) :
    lookupArg (mergeOpt (mergeOpt (baseArgs xform eid query) options "token")
      options "meta") "export_id" = some (.n eid) := by
  have h0 := lookupArg_baseArgs_export_id xform eid query
  have h1 : lookupArg (mergeOpt (baseArgs xform eid query) options "token")
      "export_id" = some (.n eid) := by
    rw [lookupArg_mergeOpt _ _ _ _ (by rw [h0]; rfl), h0]
  rw [lookupArg_mergeOpt _ _ _ _ (by rw [h1]; rfl), h1]

/-- Claim C4: for every supported export type, a successful dispatch creates
exactly one `ExportRecord`, submits exactly one job with `countdown = 10`
whose kwargs carry the fresh record id, persists the scheduler's task id on
the record, and returns the (record, handle) pair with the record's `task_id`
equal to the handle's task id.  The second conjunct exercises the
`CELERY_ALWAYS_EAGER` path with a scheduler that runs the job synchronously
and marks the record FAILED: the returned record is the re-fetched (FAILED)
row, stamped — the dispatcher re-fetches before stamping. -/
theorem dispatch_success (settings : Settings) (sched : Sched) (store : Store)
    (xform : XForm) (t : ExportType) (query : Option String) (fx : Bool)
    (options : Option (List (String × ArgVal)))
    (hsup : t.isSupported = true)
    (hpure : ∀ s st, (sched s st).1 = st)
    (hwf : ∀ r ∈ store.records, r.id < store.nextId) :
    (∃ sub' res stamped,
      (create_async_export settings sched store xform t query fx
        options).submissions = [sub'] ∧
      sub'.countdown = 10 ∧
      lookupArg sub'.args "export_id" = some (.n store.nextId) ∧
      (create_async_export settings sched store xform t query fx
        options).outcome = .ret (some (stamped, res)) ∧
      stamped.task_id = some res.task_id ∧
      stamped.id = store.nextId ∧
      (create_async_export settings sched store xform t query fx
        options).store =
        { records := store.records ++ [stamped],
          nextId := store.nextId + 1 }) ∧
    (create_async_export ⟨true, false, 0⟩ eagerFailingSched emptyStore
        sampleXForm .csv none true none).outcome =
      .ret (some ({ id := 0, xform := sampleXForm, export_type := .csv,
                    internal_status := .failed,
                    task_id := some "eager-task" },
                  { task_id := "eager-task" })) := by
  refine ⟨?_, by decide⟩
  cases t with
  | other tag => simp [ExportType.isSupported] at hsup
  | xls =>
      exact dispatch_success_core _ _ _ _ _ _ _ _ _ hpure hwf rfl
        (lookupArg_merged3_export_id xform store.nextId query options) rfl
  | gdoc =>
      exact dispatch_success_core _ _ _ _ _ _ _ _ _ hpure hwf rfl
        (lookupArg_merged3_export_id xform store.nextId query options) rfl
  | csv =>
      exact dispatch_success_core _ _ _ _ _ _ _ _ _ hpure hwf rfl
        (lookupArg_merged3_export_id xform store.nextId query options) rfl
  | csv_zip =>
      exact dispatch_success_core _ _ _ _ _ _ _ _ _ hpure hwf rfl
        (lookupArg_merged3_export_id xform store.nextId query options) rfl
  | sav_zip =>
      exact dispatch_success_core _ _ _ _ _ _ _ _ _ hpure hwf rfl
        (lookupArg_merged3_export_id xform store.nextId query options) rfl
  | zip =>
      exact dispatch_success_core _ _ _ _ _ _ _ _ _ hpure hwf rfl
        (lookupArg_baseArgs_export_id xform store.nextId query) rfl
  | kml =>
      exact dispatch_success_core _ _ _ _ _ _ _ _ _ hpure hwf rfl
        (lookupArg_baseArgs_export_id xform store.nextId query) rfl
  | external =>
      exact dispatch_success_core _ _ _ _ _ _ _ _ _ hpure hwf rfl
        (lookupArg_merged2_export_id xform store.nextId query options) rfl

/-- Witness for C4: the eager-scheduler conjunct at the sample inputs, with
the general hypotheses discharged for a pure scheduler on the empty store. -/
theorem dispatch_success_witness :
    (create_async_export ⟨true, false, 0⟩ eagerFailingSched emptyStore
        sampleXForm .csv none true none).outcome =
      .ret (some ({ id := 0, xform := sampleXForm, export_type := .csv,
                    internal_status := .failed,
                    task_id := some "eager-task" },
                  { task_id := "eager-task" })) :=
  (dispatch_success ⟨false, false, 0⟩ pureSched emptyStore sampleXForm .csv
    none true none (by decide) (fun _ _ => rfl)
    (by intro r hr; simp [emptyStore] at hr)).2

/-- Filtering an association list by a key set that contains `k` does not
change the first binding of `k`. -/
theorem find_filter_keys (l : List (String × ArgVal)) (keys : List String)
    (k : String) (hk : keys.contains k = true) :
    (l.filter (fun p => keys.contains p.1)).find? (fun p => p.1 == k) =
      l.find? (fun p => p.1 == k) := by
  induction l with
  | nil => rfl
  | cons a t ih =>
      rw [List.filter_cons]
      by_cases ha : a.1 = k
      · have h2 : (keys.contains a.1) = true := by rw [ha]; exact hk
        rw [if_pos h2, List.find?_cons_of_pos, List.find?_cons_of_pos]
        · simp [ha]
        · simp [ha]
      · by_cases h2 : (keys.contains a.1) = true
        · rw [if_pos h2, List.find?_cons_of_neg, List.find?_cons_of_neg, ih]
          · simp [ha]
          · simp [ha]
        · rw [if_neg h2, List.find?_cons_of_neg, ih]
          simp [ha]

/-- `mergeOpt` on a key in the key set is unaffected by filtering the options
mapping down to that key set. -/
theorem mergeOpt_filter_keys (arguments : List (String × ArgVal))
    (options : Option (List (String × ArgVal))) (keys : List String)
    (k : String) (hk : keys.contains k = true) :
    mergeOpt arguments (options.map (fun l => l.filter
      (fun p => keys.contains p.1))) k = mergeOpt arguments options k := by
  cases options with
  | none => rfl
  | some opts =>
      show mergeOpt arguments
        (some (opts.filter fun p => keys.contains p.1)) k =
        mergeOpt arguments (some opts) k
      simp only [mergeOpt]
      rw [find_filter_keys opts keys k hk]

/-- The spreadsheet-family merge chain is unaffected by filtering the options
mapping down to the spreadsheet-family keys. -/
theorem merge3_filter (arguments : List (String × ArgVal))
    (options : Option (List (String × ArgVal))) :
    mergeOpt (mergeOpt (mergeOpt arguments
        (options.map (fun l => l.filter (fun p =>
          (["group_delimiter", "split_select_multiples",
            "binary_select_multiples"] : List String).contains p.1)))
        "group_delimiter")
      (options.map (fun l => l.filter (fun p =>
        (["group_delimiter", "split_select_multiples",
          "binary_select_multiples"] : List String).contains p.1)))
      "split_select_multiples")
      (options.map (fun l => l.filter (fun p =>
        (["group_delimiter", "split_select_multiples",
          "binary_select_multiples"] : List String).contains p.1)))
      "binary_select_multiples" =
    mergeOpt (mergeOpt (mergeOpt arguments options "group_delimiter") options
      "split_select_multiples") options "binary_select_multiples" := by
  rw [mergeOpt_filter_keys arguments options
    ["group_delimiter", "split_select_multiples", "binary_select_multiples"]
    "group_delimiter" (by decide)]
  rw [mergeOpt_filter_keys (mergeOpt arguments options "group_delimiter")
    options
    ["group_delimiter", "split_select_multiples", "binary_select_multiples"]
    "split_select_multiples" (by decide)]
  rw [mergeOpt_filter_keys
    (mergeOpt (mergeOpt arguments options "group_delimiter") options
      "split_select_multiples") options
    ["group_delimiter", "split_select_multiples", "binary_select_multiples"]
    "binary_select_multiples" (by decide)]

/-- The external-export merge chain is unaffected by filtering the options
mapping down to the external keys. -/
theorem merge2_filter (arguments : List (String × ArgVal))
    (options : Option (List (String × ArgVal))) :
    mergeOpt (mergeOpt arguments
        (options.map (fun l => l.filter (fun p =>
          (["token", "meta"] : List String).contains p.1))) "token")
      (options.map (fun l => l.filter (fun p =>
        (["token", "meta"] : List String).contains p.1))) "meta" =
    mergeOpt (mergeOpt arguments options "token") options "meta" := by
  rw [mergeOpt_filter_keys arguments options ["token", "meta"] "token"
    (by decide)]
  rw [mergeOpt_filter_keys (mergeOpt arguments options "token") options
    ["token", "meta"] "meta" (by decide)]

/-- Routing is unaffected by filtering the options mapping down to the keys
relevant to the export type. -/
theorem routeExport_filter (arguments : List (String × ArgVal))
    (options : Option (List (String × ArgVal))) (t : ExportType) :
    routeExport arguments (options.map (fun l => l.filter
      (fun p => (relevantKeys t).contains p.1))) t =
      routeExport arguments options t := by
  cases t with
  | xls =>
      simp only [relevantKeys]
      change Except.ok _ = Except.ok _
      rw [merge3_filter]
  | gdoc =>
      simp only [relevantKeys]
      change Except.ok _ = Except.ok _
      rw [merge3_filter]
  | csv =>
      simp only [relevantKeys]
      change Except.ok _ = Except.ok _
      rw [merge3_filter]
  | csv_zip =>
      simp only [relevantKeys]
      change Except.ok _ = Except.ok _
      rw [merge3_filter]
  | sav_zip =>
      simp only [relevantKeys]
      change Except.ok _ = Except.ok _
      rw [merge3_filter]
  | zip => rfl
  | kml => rfl
  | external =>
      simp only [relevantKeys]
      change Except.ok _ = Except.ok _
      rw [merge2_filter]
  | other tag => rfl

/-- The keys of the kwargs after `mergeOpt`: the old keys, plus `k` exactly
when the options mapping holds it. -/
theorem mergeOpt_keys (arguments : List (String × ArgVal))
    (options : Option (List (String × ArgVal))) (k : String) :
    (mergeOpt arguments options k).map Prod.fst =
      arguments.map Prod.fst ++
        (if optHasKey options k then [k] else []) := by
  cases options with
  | none => simp [mergeOpt, optHasKey]
  | some opts =>
      cases hf : opts.find? (fun p => p.1 == k) with
      | none => simp [mergeOpt, optHasKey, hf]
      | some p => simp [mergeOpt, optHasKey, hf]

/-- The keys of the base kwargs. -/
theorem baseArgs_keys (xform : XForm) (eid : Nat) (query : Option String) :
    (baseArgs xform eid query).map Prod.fst =
      ["username", "id_string", "export_id", "query"] := by
  cases query <;> rfl

/-- The keys of the kwargs after the three spreadsheet-family merges. -/
theorem merged3_keys (xform : XForm) (eid : Nat) (query : Option String)
    (options : Option (List (String × ArgVal))) :
    (mergeOpt (mergeOpt (mergeOpt (baseArgs xform eid query) options
      "group_delimiter") options "split_select_multiples") options
      "binary_select_multiples").map Prod.fst =
      ["username", "id_string", "export_id", "query"] ++
        (["group_delimiter", "split_select_multiples",
          "binary_select_multiples"].filter
            (fun k => optHasKey options k)) := by
  rw [mergeOpt_keys, mergeOpt_keys, mergeOpt_keys, baseArgs_keys]
  cases h1 : optHasKey options "group_delimiter" <;>
    cases h2 : optHasKey options "split_select_multiples" <;>
      cases h3 : optHasKey options "binary_select_multiples" <;>
        simp [List.filter_cons, h1, h2, h3]

/-- The keys of the kwargs after the two external-export merges. -/
theorem merged2_keys (xform : XForm) (eid : Nat) (query : Option String)
    (options : Option (List (String × ArgVal))) :
    (mergeOpt (mergeOpt (baseArgs xform eid query) options "token") options
      "meta").map Prod.fst =
      ["username", "id_string", "export_id", "query"] ++
        (["token", "meta"].filter (fun k => optHasKey options k)) := by
  rw [mergeOpt_keys, mergeOpt_keys, baseArgs_keys]
  cases h1 : optHasKey options "token" <;>
    cases h2 : optHasKey options "meta" <;>
      simp [List.filter_cons, h1, h2]

/-- Claim C9: option keys not applicable to the chosen export type are
silently dropped: the dispatch result is unchanged if the options mapping is
first filtered down to the keys relevant to the type (so irrelevant keys
never cause a failure), and every submitted job's kwargs hold exactly the
four base keys plus the relevant option keys that were present. -/
theorem dispatch_option_filtering :
    (∀ (settings : Settings) (sched : Sched) (store : Store) (xform : XForm)
      (t : ExportType) (query : Option String) (fx : Bool)
      (options : Option (List (String × ArgVal))),
      create_async_export settings sched store xform t query fx
        (options.map (fun l => l.filter
          (fun p => (relevantKeys t).contains p.1))) =
      create_async_export settings sched store xform t query fx options) ∧
    (∀ (settings : Settings) (sched : Sched) (store : Store) (xform : XForm)
      (t : ExportType) (query : Option String) (fx : Bool)
      (options : Option (List (String × ArgVal))) (sub : Submission),
      sub ∈ (create_async_export settings sched store xform t query fx
        options).submissions →
      sub.args.map Prod.fst =
        ["username", "id_string", "export_id", "query"] ++
          (relevantKeys t).filter (fun k => optHasKey options k)) := by
  constructor
  · intro settings sched store xform t query fx options
    simp only [create_async_export]
    rw [routeExport_filter]
  · intro settings sched store xform t query fx options sub hsub
    rw [dispatch_submissions_eq] at hsub
    cases t with
    | other tag => simp [routeExport] at hsub
    | xls =>
        simp only [routeExport] at hsub
        simp at hsub
        subst hsub
        simpa [relevantKeys] using
          merged3_keys xform store.nextId query options
    | gdoc =>
        simp only [routeExport] at hsub
        simp at hsub
        subst hsub
        simpa [relevantKeys] using
          merged3_keys xform store.nextId query options
    | csv =>
        simp only [routeExport] at hsub
        simp at hsub
        subst hsub
        simpa [relevantKeys] using
          merged3_keys xform store.nextId query options
    | csv_zip =>
        simp only [routeExport] at hsub
        simp at hsub
        subst hsub
        simpa [relevantKeys] using
          merged3_keys xform store.nextId query options
    | sav_zip =>
        simp only [routeExport] at hsub
        simp at hsub
        subst hsub
        simpa [relevantKeys] using
          merged3_keys xform store.nextId query options
    | zip =>
        simp only [routeExport] at hsub
        simp at hsub
        subst hsub
        simpa [relevantKeys] using baseArgs_keys xform store.nextId query
    | kml =>
        simp only [routeExport] at hsub
        simp at hsub
        subst hsub
        simpa [relevantKeys] using baseArgs_keys xform store.nextId query
    | external =>
        simp only [routeExport] at hsub
        simp at hsub
        subst hsub
        simpa [relevantKeys] using
          merged2_keys xform store.nextId query options

/-- Witness for C9: dispatching a ZIP export with an irrelevant
`group_delimiter` option yields a submission whose kwargs hold exactly the
four base keys. -/
theorem dispatch_option_filtering_witness :
    subZipSample.args.map Prod.fst =
      ["username", "id_string", "export_id", "query"] ++
        ((relevantKeys .zip).filter (fun k => optHasKey
          (some [("group_delimiter", ArgVal.s "|")]) k)) :=
  dispatch_option_filtering.2 ⟨false, false, 0⟩ pureSched emptyStore
    sampleXForm .zip none true (some [("group_delimiter", ArgVal.s "|")])
    subZipSample (by decide)

/-- Any generator call the XLS wrapper makes carries the extension computed
from `force_xlsx`. -/
theorem create_xls_export_ext (gen : GenCall → GenResult) (store : Store)
    (u i : String) (eid : Nat) (q : Option String) (fx : Bool) (gd : String)
    (ssm bsm : Bool) (c : GenCall)
    (hc : c ∈ (create_xls_export gen store u i eid q fx gd ssm bsm).genCalls) :
    c.extOf = some (if !fx then "xls" else "xlsx") := by
  unfold create_xls_export at hc
  split at hc
  all_goals
    split at hc
    · simp at hc
    · simp only [] at hc
      split at hc
      all_goals
        simp at hc
        subst hc
        simp_all [GenCall.extOf]

/-- The base kwargs never bind `force_xlsx`. -/
theorem lookupArg_baseArgs_force_xlsx (xform : XForm) (eid : Nat)
    (query : Option String) :
    lookupArg (baseArgs xform eid query) "force_xlsx" = none := by
  cases query <;> rfl

/-- The spreadsheet-family merge chain never binds `force_xlsx`. -/
theorem lookupArg_merged3_force_xlsx (xform : XForm) (eid : Nat)
    (query : Option String) (options : Option (List (String × ArgVal))) :
    lookupArg (mergeOpt (mergeOpt (mergeOpt (baseArgs xform eid query)
      options "group_delimiter") options "split_select_multiples") options
      "binary_select_multiples") "force_xlsx" = none := by
  rw [lookupArg_mergeOpt_ne
    (mergeOpt (mergeOpt (baseArgs xform eid query) options "group_delimiter")
      options "split_select_multiples") options "binary_select_multiples"
    "force_xlsx" (by decide)]
  rw [lookupArg_mergeOpt_ne
    (mergeOpt (baseArgs xform eid query) options "group_delimiter") options
    "split_select_multiples" "force_xlsx" (by decide)]
  rw [lookupArg_mergeOpt_ne (baseArgs xform eid query) options
    "group_delimiter" "force_xlsx" (by decide)]
  exact lookupArg_baseArgs_force_xlsx xform eid query

/-- The external-export merge chain never binds `force_xlsx`. -/
theorem lookupArg_merged2_force_xlsx (xform : XForm) (eid : Nat)
    (query : Option String) (options : Option (List (String × ArgVal))) :
    lookupArg (mergeOpt (mergeOpt (baseArgs xform eid query) options "token")
      options "meta") "force_xlsx" = none := by
  rw [lookupArg_mergeOpt_ne (mergeOpt (baseArgs xform eid query) options
    "token") options "meta" "force_xlsx" (by decide)]
  rw [lookupArg_mergeOpt_ne (baseArgs xform eid query) options "token"
    "force_xlsx" (by decide)]
  exact lookupArg_baseArgs_force_xlsx xform eid query

/-- Claim C10: the dispatcher accepts `force_xlsx` but never places it in the
kwargs of any submission; consequently a spreadsheet job run from a
dispatcher submission uses the wrapper default `force_xlsx=True` and invokes
its generator with extension `xlsx`; the `xls` extension occurs only when the
wrapper is invoked directly with `force_xlsx=False`. -/
theorem dispatcher_force_xlsx_unused :
    (∀ (settings : Settings) (sched : Sched) (store : Store) (xform : XForm)
      (t : ExportType) (query : Option String) (fx : Bool)
      (options : Option (List (String × ArgVal))) (sub : Submission),
      sub ∈ (create_async_export settings sched store xform t query fx
        options).submissions →
      lookupArg sub.args "force_xlsx" = none) ∧
    (∀ (gen : GenCall → GenResult) (store : Store) (u i : String) (eid : Nat)
      (q : Option String) (gd : String) (ssm bsm : Bool) (c : GenCall),
      c ∈ (create_xls_export gen store u i eid q true gd ssm bsm).genCalls →
      c.extOf = some "xlsx") ∧
    (∀ (gen : GenCall → GenResult) (store : Store) (u i : String) (eid : Nat)
      (q : Option String) (gd : String) (ssm bsm : Bool) (c : GenCall),
      c ∈ (create_xls_export gen store u i eid q false gd ssm bsm).genCalls →
      c.extOf = some "xls") ∧
    (∀ (gen : GenCall → GenResult) (store2 : Store) (settings : Settings)
      (sched : Sched) (store : Store) (xform : XForm) (t : ExportType)
      (query : Option String) (fx : Bool)
      (options : Option (List (String × ArgVal))) (sub : Submission),
      sub ∈ (create_async_export settings sched store xform t query fx
        options).submissions →
      ∀ c, c ∈ (runXlsSubmission gen store2 sub).genCalls →
      c.extOf = some "xlsx") := by
  have hfx : ∀ (settings : Settings) (sched : Sched) (store : Store)
      (xform : XForm) (t : ExportType) (query : Option String) (fx : Bool)
      (options : Option (List (String × ArgVal))) (sub : Submission),
      sub ∈ (create_async_export settings sched store xform t query fx
        options).submissions →
      lookupArg sub.args "force_xlsx" = none := by
    intro settings sched store xform t query fx options sub hsub
    rw [dispatch_submissions_eq] at hsub
    cases t with
    | other tag => simp [routeExport] at hsub
    | xls =>
        simp only [routeExport] at hsub
        simp at hsub
        subst hsub
        exact lookupArg_merged3_force_xlsx xform store.nextId query options
    | gdoc =>
        simp only [routeExport] at hsub
        simp at hsub
        subst hsub
        exact lookupArg_merged3_force_xlsx xform store.nextId query options
    | csv =>
        simp only [routeExport] at hsub
        simp at hsub
        subst hsub
        exact lookupArg_merged3_force_xlsx xform store.nextId query options
    | csv_zip =>
        simp only [routeExport] at hsub
        simp at hsub
        subst hsub
        exact lookupArg_merged3_force_xlsx xform store.nextId query options
    | sav_zip =>
        simp only [routeExport] at hsub
        simp at hsub
        subst hsub
        exact lookupArg_merged3_force_xlsx xform store.nextId query options
    | zip =>
        simp only [routeExport] at hsub
        simp at hsub
        subst hsub
        exact lookupArg_baseArgs_force_xlsx xform store.nextId query
    | kml =>
        simp only [routeExport] at hsub
        simp at hsub
        subst hsub
        exact lookupArg_baseArgs_force_xlsx xform store.nextId query
    | external =>
        simp only [routeExport] at hsub
        simp at hsub
        subst hsub
        exact lookupArg_merged2_force_xlsx xform store.nextId query options
  refine ⟨hfx, ?_, ?_, ?_⟩
  · intro gen store u i eid q gd ssm bsm c hc
    simpa using create_xls_export_ext gen store u i eid q true gd ssm bsm c hc
  · intro gen store u i eid q gd ssm bsm c hc
    simpa using create_xls_export_ext gen store u i eid q false gd ssm bsm c
      hc
  · intro gen store2 settings sched store xform t query fx options sub hsub c
      hc
    have h1 := hfx settings sched store xform t query fx options sub hsub
    unfold runXlsSubmission at hc
    have hb : argBoolD sub.args "force_xlsx" true = true := by
      unfold argBoolD
      rw [h1]
    rw [hb] at hc
    simpa using create_xls_export_ext gen store2 _ _ _ _ true _ _ _ c hc

/-- Witness for C10: the XLS wrapper invoked with the default
`force_xlsx=True` calls its generator with extension `xlsx`. -/
theorem dispatcher_force_xlsx_unused_witness :
    GenCall.extOf (.generate_export .xls "xlsx" "bob" "form1" 0 none "/" true
      false) = some "xlsx" :=
  dispatcher_force_xlsx_unused.2.1 genOk sampleStore "bob" "form1" 0 none "/"
    true false
    (.generate_export .xls "xlsx" "bob" "form1" 0 none "/" true false)
    (by decide)
